import Mathlib

/-!
# Verification of the hachoir-parser RAR block decoder

Shallow embedding of `hachoir_parser/archive/rar.py` and
`hachoir_parser/parser.py`.

The hachoir decoders are Python generator functions (`createFields`) that
yield fields one at a time while consuming a little-endian bit stream.  We
model the stream as a `List Bool` of bits (least-significant bit of each
byte first, matching hachoir's `LITTLE_ENDIAN` addressing), and a decode as
a state transformer over `DecState`.  A Python exception raised while the
generator runs leaves the previously yielded fields in place, so errors are
recorded in the state (`err`) rather than discarding the state: once `err`
is set every primitive is a no-op, mirroring the fact that the generator is
not advanced further.

Each `createFields` generator is rendered as a composition of named stages
(one per straight-line run of `yield`s, and one per conditional statement
of the Python source); the stages are annotated with the source lines they
translate.  Values of already-yielded fields — Python's
`self["name"].value` and the `x = field.value` locals — are recovered with
`getVal`, which looks the named field up in the yielded-field list, exactly
as hachoir's `self[...]` dictionary access does.
-/

/-- Runtime errors that the Python decoders can raise. -/
inductive DErr where
  | truncated
  | nameError (missing : String)
  | parserError (msg : String)
  deriving Repr, DecidableEq

/-- A decoded field, as yielded by a `createFields` generator: an unsigned
bit-level integer field (`Bit`/`Bits`/`UInt8`/…), a `RawBytes` run, or a
fixed-length `String` field. -/
inductive HField where
  | bits (name : String) (width : Nat) (val : Nat)
  | raw (name : String) (numBytes : Nat)
  | str (name : String) (numBytes : Nat)
  deriving Repr, DecidableEq

/-- Name of a decoded field. -/
def fieldName : HField → String
  | .bits n _ _ => n
  | .raw n _ => n
  | .str n _ => n

/-- State of a running `createFields` generator: the unread bits, the
fields yielded so far, and the exception raised (if any). -/
structure DecState where
  bits : List Bool
  fields : List HField
  err : Option DErr
  deriving Repr, DecidableEq

/-- Fresh decoder state on a given input bit stream. -/
def initState (bs : List Bool) : DecState := ⟨bs, [], none⟩

/-- Little-endian value of a list of bits. -/
def bitsVal : List Bool → Nat
  | [] => 0
  | b :: bs => (if b then 1 else 0) + 2 * bitsVal bs

/-- Value of the integer field called `name` in a yielded-field list
(models hachoir's `self["name"].value` dictionary access; names are unique
at every point where the RAR decoders perform a lookup). -/
def lookupVal : List HField → String → Nat
  | [], _ => 0
  | HField.bits n _ v :: fs, name => if n = name then v else lookupVal fs name
  | _ :: fs, name => lookupVal fs name

/-- `self["name"].value` on the current decode state. -/
def getVal (s : DecState) (name : String) : Nat := lookupVal s.fields name

/-- Read `width` bits from the stream and yield an integer field named
`name` (models `yield Bit/Bits/UIntN(...)`). -/
def readBitsF (name : String) (width : Nat) (s : DecState) : DecState :=
  match s.err with
  | some _ => s
  | none =>
    if width ≤ s.bits.length then
      ⟨s.bits.drop width,
       s.fields ++ [HField.bits name width (bitsVal (s.bits.take width))],
       none⟩
    else { s with err := some .truncated }

/-- Yield a `RawBytes(self, name, numBytes)` field, consuming
`8 * numBytes` bits. -/
def rawF (name : String) (numBytes : Nat) (s : DecState) : DecState :=
  match s.err with
  | some _ => s
  | none =>
    if 8 * numBytes ≤ s.bits.length then
      ⟨s.bits.drop (8 * numBytes), s.fields ++ [HField.raw name numBytes], none⟩
    else { s with err := some .truncated }

/-- Yield a `String(self, name, numBytes)` field, consuming
`8 * numBytes` bits. -/
def strF (name : String) (numBytes : Nat) (s : DecState) : DecState :=
  match s.err with
  | some _ => s
  | none =>
    if 8 * numBytes ≤ s.bits.length then
      ⟨s.bits.drop (8 * numBytes), s.fields ++ [HField.str name numBytes], none⟩
    else { s with err := some .truncated }

/-- Raise a Python exception inside the generator. -/
def throwErr (e : DErr) (s : DecState) : DecState :=
  match s.err with
  | some _ => s
  | none => { s with err := some e }

/-- The shared flag prologue that DefaultBlock, CommentBlock,
ExtraInfoBlock, MarkerBlock and EndBlock all inline (rar.py lines 103-106,
127-130, 139-142, 148-151, 167-170): 8 unused flag bits, the
`has_extended_size` bit, the `is_ignorable` bit, 6 more unused flag
bits. -/
def baseFlagBits (s : DecState) : DecState :=
  readBitsF "flags_bits2" 6 (readBitsF "is_ignorable" 1
    (readBitsF "has_extended_size" 1 (readBitsF "flags_bits1" 8 s)))

/-- `CommentBlock.createFields` (rar.py lines 145-162).  After the flag
prologue, `total_size` and `uncompressed_size`, the source executes
`yield Byte(self, "required_version", ...)` (line 157); `Byte` is neither
imported (the import list names `UInt8` etc., not `Byte`) nor defined
anywhere in the module, so evaluating it raises `NameError` and the
generator stops there; the fields of lines 157-162 are never reached. -/
def commentBlockFields (s0 : DecState) : DecState :=
  throwErr (.nameError "Byte")
    (readBitsF "uncompressed_size" 16 (readBitsF "total_size" 16
      (baseFlagBits s0)))

/-- Lines 111-113 of `DefaultBlock.createFields`: when the extended-size
bit is set, yield the 32-bit `added_size` field and add its value to the
running size. -/
def defaultAddedStep : Nat × DecState → Nat × DecState
  | (size, s) =>
    if getVal s "has_extended_size" = 1 then
      let s2 := readBitsF "added_size" 32 s
      (size + getVal s2 "added_size", s2)
    else (size, s)

/-- Lines 115-116 of `DefaultBlock.createFields`: yield the declared size
as opaque payload when positive. -/
def defaultBodyStep : Nat × DecState → DecState
  | (size, s) => if 0 < size then rawF "unknown" size s else s

/-- `DefaultBlock.createFields` (rar.py lines 100-116).  Note that after
reading `head_size` (and `added_size` when the extended-size bit is set)
the source yields `RawBytes(self, "unknown", size)` with `size` the full
declared size — the inlined copy of `parseBaseBody` dropped the `-7` that
`BaseBlock.parseBaseBody` (line 96) applies. -/
def defaultBlockFields (s0 : DecState) : DecState :=
  let s := readBitsF "head_size" 16 (baseFlagBits s0)
  defaultBodyStep (defaultAddedStep (getVal s "head_size", s))

/-- Lines 176-177 of `ExtraInfoBlock.createFields`: yield `size - 7` bytes
of opaque payload when positive.  The source tests `size-7>0` on the
`UInt16` field object itself; the semantics of field arithmetic live in
`hachoir_core`, which is not under src/.  Modelled from the spec:
"ExtraInfo and Default: common prologue + 16-bit size field, then
`size − 7` bytes of opaque payload when positive", i.e. the arithmetic is
taken on the field's value. -/
def extraInfoBodyStep (s : DecState) : DecState :=
  if 0 < (getVal s "total_size" : Int) - 7 then
    rawF "info_data" ((getVal s "total_size" : Int) - 7).toNat s
  else s

/-- `ExtraInfoBlock.createFields` (rar.py lines 164-177). -/
def extraInfoBlockFields (s0 : DecState) : DecState :=
  extraInfoBodyStep (readBitsF "total_size" 16 (baseFlagBits s0))

/-- `MarkerBlock.createFields` (rar.py lines 126-131): the two flag bytes
and the 16-bit `head_size`, nothing else (no `added_size`, no payload). -/
def markerBlockFields (s0 : DecState) : DecState :=
  readBitsF "head_size" 16 (baseFlagBits s0)

/-- `EndBlock.createFields` (rar.py lines 137-143): textually identical to
`MarkerBlock.createFields`. -/
def endBlockFields (s0 : DecState) : DecState :=
  readBitsF "head_size" 16 (baseFlagBits s0)

/-- Lines 214-229 of `FileBlock.createFields`: the sixteen flag bits, in
yield order. -/
def fileFlagBits (s : DecState) : DecState :=
  readBitsF "bextflag" 1 (readBitsF "bexttime" 1 (readBitsF "uses_file_version" 1
    (readBitsF "has_salt" 1 (readBitsF "is_unicode" 1 (readBitsF "is_large" 1
      (readBitsF "is_ignorable" 1 (readBitsF "has_extended_size" 1
        (readBitsF "dictionary_size" 3 (readBitsF "is_solid" 1
          (readBitsF "has_comment" 1 (readBitsF "encrypted" 1
            (readBitsF "continued_in" 1 (readBitsF "continued_from" 1 s)))))))))))))

/-- Lines 244-247 of `FileBlock.createFields`: a 32-bit attribute word is
yielded either way; it is named `file_attr` for host OS 0 (MS-DOS) or 2
(Win32) and `attr` otherwise (`os = os.value` on line 236 is the value of
the `host_os` field). -/
def fileAttrField (s : DecState) : DecState :=
  readBitsF
    (if getVal s "host_os" = 0 ∨ getVal s "host_os" = 2 then "file_attr"
     else "attr") 32 s

/-- Lines 232-248 of `FileBlock.createFields`: the nine fixed fields after
`head_size`, then `head_size -= 4+4+1+4+4+1+1+2+4` (line 248). -/
def fileFixedStep : Int × DecState → Int × DecState
  | (headSize, s) =>
    (headSize - (4+4+1+4+4+1+1+2+4),
     fileAttrField (readBitsF "filename_length" 16 (readBitsF "method" 8
       (readBitsF "version" 8 (readBitsF "ftime" 32 (readBitsF "file_crc" 32
         (readBitsF "host_os" 8 (readBitsF "uncompressed_size" 32
           (readBitsF "compressed_size" 32 s)))))))))

/-- Lines 250-252: when `self["is_large"].value` is set, yield the 64-bit
`large_size` field and subtract 8 from the running header count. -/
def fileLargeStep : Int × DecState → Int × DecState
  | (headSize, s) =>
    if getVal s "is_large" = 1 then (headSize - 8, readBitsF "large_size" 64 s)
    else (headSize, s)

/-- Line 253: `if self["is_unicode"].value: ParserError("Can't handle
unicode filenames.")` — the exception object is constructed but not
`raise`d, so the statement has no effect on the decode and is a no-op
here. -/
def fileUnicodeStep : Int × DecState → Int × DecState
  | (headSize, s) => (headSize, s)

/-- Lines 254-256: when `self["has_salt"].value` is set, yield the 1-byte
`salt` field and subtract 1. -/
def fileSaltStep : Int × DecState → Int × DecState
  | (headSize, s) =>
    if getVal s "has_salt" = 1 then (headSize - 1, readBitsF "salt" 8 s)
    else (headSize, s)

/-- Lines 257-258: when `self["bexttime"].value` is set, yield the 16-bit
`time_flags` field; nothing is subtracted from the running count. -/
def fileTimeStep : Int × DecState → Int × DecState
  | (headSize, s) =>
    if getVal s "bexttime" = 1 then (headSize, readBitsF "time_flags" 16 s)
    else (headSize, s)

/-- Lines 261-263: when the filename length (`size = size.value`, the
`filename_length` field of line 241) is positive, yield the filename text
and subtract the length. -/
def fileNameStep : Int × DecState → Int × DecState
  | (headSize, s) =>
    if 0 < getVal s "filename_length" then
      (headSize - (getVal s "filename_length" : Int),
       strF "filename" (getVal s "filename_length") s)
    else (headSize, s)

/-- Lines 266-267: yield the positive leftover of the running header count
as opaque `extra_data`. -/
def fileExtraStep : Int × DecState → DecState
  | (headSize, s) =>
    if 0 < headSize then rawF "extra_data" headSize.toNat s else s

/-- Lines 270-271: `size = self["compressed_size"].value`, then yield the
compressed payload. -/
def fileCompressedStep (s : DecState) : DecState :=
  rawF "compressed_data" (getVal s "compressed_size") s

/-- Lines 272-273: when `self["has_comment"].value` is set, decode a
nested `CommentBlock`. -/
def fileCommentStep (s : DecState) : DecState :=
  if getVal s "has_comment" = 1 then commentBlockFields s else s

/-- `FileBlock.createFields` (rar.py lines 213-273): the staged decode.
The running header count is seeded with `head_size.value - (2+1+2+2)`
(line 230) and threaded through the stages exactly as the Python local
`head_size` is. -/
def fileBlockFields (s0 : DecState) : DecState :=
  let s := readBitsF "head_size" 16 (fileFlagBits s0)
  fileCommentStep (fileCompressedStep (fileExtraStep (fileNameStep
    (fileTimeStep (fileSaltStep (fileUnicodeStep (fileLargeStep
      (fileFixedStep ((getVal s "head_size" : Int) - (2+1+2+2), s)))))))))

/-- The block variant selected by `BlockHead.createFields`
(rar.py lines 279-313) for a given type-tag value.  Tags 0x78, 0x79 and
0x80 yield `DefaultBlock` instances with distinct names/descriptions
("Recovery block", "Signature block", "New-format subblock"); the final
`else` yields `DefaultBlock(self, "unknown", "Unknown block")`.  For tag
0x77 the source executes `yield SubBlock(...)`, but no `SubBlock` class is
defined or imported anywhere in the module, so that arm raises
`NameError`. -/
inductive BlockVariant where
  | marker | archive | file | comment | extraInfo
  | subBlockNameError
  | recovery | signature | newFormatSubblock | endBlock | unknown
  deriving Repr, DecidableEq

/-- Tag dispatch of `BlockHead.createFields`, mirroring the `if`/`elif`
chain of rar.py lines 289-313 (note the `elif type == 0x80` arm on line
307, labelled "New-format subblock"). -/
def blockHeadDispatch (ty : Nat) : BlockVariant :=
  if ty = 0x72 then .marker
  else if ty = 0x73 then .archive
  else if ty = 0x74 then .file
  else if ty = 0x75 then .comment
  else if ty = 0x76 then .extraInfo
  else if ty = 0x77 then .subBlockNameError
  else if ty = 0x78 then .recovery
  else if ty = 0x79 then .signature
  else if ty = 0x80 then .newFormatSubblock
  else if ty = 0x7B then .endBlock
  else .unknown

/-- Errors raised by hachoir computation callbacks (the `HACHOIR_ERRORS`
family of parser.py). -/
inductive HErr where
  | hachoirError (msg : String)
  deriving Repr, DecidableEq

/-- The memoization-relevant attributes of a `HachoirParser` instance
(parser.py).  `HachoirParser.__init__` sets only `self._mime_type = None`;
`self._description` is initialised to `None` by the `hachoir_core` field
constructor; `_content_size` and `_filename_extension` start absent
(`hasattr` is false), modelled with an outer `Option` whose `none` means
"attribute not set".  `_filename_suffix` is only ever *tested* with
`hasattr` — no code ever assigns it — recorded by
`filenameSuffixAttrSet`.  The `n*` counters count invocations of the
`create*` computation functions (the spec's observable computation
counter). -/
structure PState where
  mimeType : Option String
  descr : Option String
  contentSizeAttr : Option (Option Int)
  filenameExtAttr : Option (Option String)
  filenameSuffixAttrSet : Bool
  nDescription : Nat
  nMimeType : Nat
  nContentSize : Nat
  nFilenameSuffix : Nat
  deriving Repr, DecidableEq

/-- A parser instance right after `__init__`. -/
def freshParser : PState :=
  ⟨none, none, none, none, false, 0, 0, 0, 0⟩

/-- Python truthiness of an optional string: `None` and `""` are falsy. -/
def falsy : Option String → Bool
  | none => true
  | some t => t = ""

/-- `HachoirParser._getDescription` (parser.py lines 59-70): on a cache
miss the computation runs inside `try`; `HACHOIR_ERRORS` are logged and
replaced by `self.tags["description"]`, which is cached.
`makePrintable` (external) is modelled as the identity. -/
def pGetDescription (createDescription : Except HErr (Option String))
    (tagsDescription : String) (s : PState) : Option String × PState :=
  if s.descr = none then
    match createDescription with
    | .ok v => (v, { s with descr := v, nDescription := s.nDescription + 1 })
    | .error _ =>
        (some tagsDescription,
         { s with descr := some tagsDescription,
                  nDescription := s.nDescription + 1 })
  else (s.descr, s)

/-- `HachoirParser._getMimeType` (parser.py lines 74-79): no `try` block —
an exception from `createMimeType` propagates to the caller.  A falsy
result (`None` or `""`) is replaced by `"application/octet-stream"`. -/
def pGetMimeType (createMimeType : Except HErr (Option String)) (s : PState) :
    Except HErr (Option String) × PState :=
  if falsy s.mimeType then
    match createMimeType with
    | .error e => (.error e, { s with nMimeType := s.nMimeType + 1 })
    | .ok v =>
      let s1 : PState := { s with mimeType := v, nMimeType := s.nMimeType + 1 }
      let s2 : PState :=
        if falsy s1.mimeType then
          { s1 with mimeType := some "application/octet-stream" }
        else s1
      (.ok s2.mimeType, s2)
  else (.ok s.mimeType, s)

/-- `HachoirParser._getContentSize` (parser.py lines 84-91): guarded by
`hasattr(self, "_content_size")`; the computation runs inside `try`, and
on a `HACHOIR_ERRORS` failure `None` is cached. -/
def pGetContentSize (createContentSize : Except HErr (Option Int))
    (s : PState) : Option Int × PState :=
  if s.contentSizeAttr = none then
    match createContentSize with
    | .ok v =>
        (v, { s with contentSizeAttr := some v,
                     nContentSize := s.nContentSize + 1 })
    | .error _ =>
        (none, { s with contentSizeAttr := some none,
                        nContentSize := s.nContentSize + 1 })
  else (s.contentSizeAttr.getD none, s)

/-- `HachoirParser._getFilenameSuffix` (parser.py lines 103-106): the guard
tests `hasattr(self, "_filename_suffix")` but the computed value is
assigned to `self._filename_extension`; no code ever sets
`_filename_suffix`.  There is no `try` block, so an exception from
`createFilenameSuffix` propagates.  Reading `self._filename_extension`
when it was never assigned would be an `AttributeError`, modelled as an
error result. -/
def pGetFilenameSuffix (createFilenameSuffix : Except HErr (Option String))
    (s : PState) : Except HErr (Option String) × PState :=
  if s.filenameSuffixAttrSet = false then
    match createFilenameSuffix with
    | .error e => (.error e, { s with nFilenameSuffix := s.nFilenameSuffix + 1 })
    | .ok v =>
      let s1 : PState := { s with filenameExtAttr := some v,
                                  nFilenameSuffix := s.nFilenameSuffix + 1 }
      match s1.filenameExtAttr with
      | some w => (.ok w, s1)
      | none => (.error (.hachoirError "AttributeError"), s1)
  else
    match s.filenameExtAttr with
    | some w => (.ok w, s)
    | none => (.error (.hachoirError "AttributeError"), s)

/-- The part of the decoded RAR field tree that
`RarFile.createMimeType`/`createFilenameSuffix` inspect: the values of
`file[0]/filename` and `file[0]/compressed_data` (`none` when the path is
missing, in which case the lookup raises a hachoir missing-field
error). -/
structure RarTree where
  firstFilename : Option String
  firstCompressedData : Option String
  deriving Repr, DecidableEq

/-- `RarFile.createMimeType` (rar.py lines 341-345). -/
def rarCreateMimeType (t : RarTree) : Except HErr (Option String) :=
  match t.firstFilename with
  | none => .error (.hachoirError "Missing field file[0]/filename")
  | some fn =>
    if fn = "mimetype" then
      match t.firstCompressedData with
      | none => .error (.hachoirError "Missing field file[0]/compressed_data")
      | some d => .ok (some d)
    else .ok (some "application/rar")

/-- `RarFile.createFilenameSuffix` (rar.py lines 347-352).  The
`self.MIME_TYPES` table is referenced but defined nowhere under src/;
modelled from the spec: "its compressed payload is treated as a MIME-type
string and mapped to a suffix table" — the table is taken as an abstract
mapping `mimeTypes` from MIME strings to extensions (`none` for
`mime not in MIME_TYPES`). -/
def rarCreateFilenameSuffix (mimeTypes : String → Option String)
    (t : RarTree) : Except HErr (Option String) :=
  match t.firstFilename with
  | none => .error (.hachoirError "Missing field file[0]/filename")
  | some fn =>
    if fn = "mimetype" then
      match t.firstCompressedData with
      | none => .error (.hachoirError "Missing field file[0]/compressed_data")
      | some mime =>
        match mimeTypes mime with
        | some ext => .ok (some ("." ++ ext))
        | none => .ok (some ".rar")
    else .ok (some ".rar")

/-- `MarkerBlock.magic` (rar.py line 124): the string `"Rar!\x1A\x07\x00"`. -/
def markerMagic : String := "Rar!\x1A\x07\x00"

/-- The magic as a byte sequence. -/
def markerMagicBytes : List Nat := markerMagic.toList.map Char.toNat

/-- Result of `RarFile.validate`: Python `True`, or the returned error
string. -/
inductive ValidateResult where
  | ok
  | invalid (msg : String)
  deriving Repr, DecidableEq

/-- `RarFile.validate` (rar.py lines 330-333): compare
`stream.readBytes(0, len(MarkerBlock.magic))` — the first 7 bytes of the
stream — against the magic.  `Parser.__init__` (parser.py lines 133-147)
runs this before `createFields` ever decodes a block, and wraps a non-True
result in a `ValidateError`. -/
def rarValidate (stream : List Nat) : ValidateResult :=
  if stream.take markerMagicBytes.length = markerMagicBytes then .ok
  else .invalid "Invalid magic"

/-- Little-endian encoding of `v` on `w` bits. -/
def enc (v : Nat) : Nat → List Bool
  | 0 => []
  | w + 1 => (v % 2 == 1) :: enc (v / 2) w

/-- A single flag bit. -/
def bitB (b : Bool) : List Bool := [b]

@[simp] theorem enc_length (v w : Nat) : (enc v w).length = w := by
  induction w generalizing v with
  | zero => rfl
  | succ w ih => simp [enc, ih]

@[simp] theorem bitB_length (b : Bool) : (bitB b).length = 1 := rfl

@[simp] theorem bitsVal_single (b : Bool) :
    bitsVal [b] = if b then 1 else 0 := by
  cases b <;> simp [bitsVal]

theorem bitsVal_enc (v w : Nat) : bitsVal (enc v w) = v % 2 ^ w := by
  induction w generalizing v with
  | zero => simp [enc, bitsVal, Nat.mod_one]
  | succ w ih =>
    have h2 : v % 2 = 0 ∨ v % 2 = 1 := Nat.mod_two_eq_zero_or_one v
    have hm : v % (2 * 2 ^ w) = v % 2 + 2 * (v / 2 % 2 ^ w) := Nat.mod_mul
    have hp : (2 : Nat) ^ (w + 1) = 2 * 2 ^ w := by ring
    rcases h2 with h | h <;>
      simp [enc, bitsVal, ih, h, hp, hm]

theorem readBitsF_append (name : String) (w : Nat) (l r : List Bool)
    (flds : List HField) (h : l.length = w) :
    readBitsF name w ⟨l ++ r, flds, none⟩ =
      ⟨r, flds ++ [HField.bits name w (bitsVal l)], none⟩ := by
  subst h
  simp [readBitsF, List.take_left, List.drop_left]

theorem readBitsF_bitB (name : String) (b : Bool) (r : List Bool)
    (flds : List HField) :
    readBitsF name 1 ⟨bitB b ++ r, flds, none⟩ =
      ⟨r, flds ++ [HField.bits name 1 (if b then 1 else 0)], none⟩ := by
  simpa [bitB] using readBitsF_append name 1 [b] r flds rfl

theorem readBitsF_enc (name : String) (w v : Nat) (r : List Bool)
    (flds : List HField) :
    readBitsF name w ⟨enc v w ++ r, flds, none⟩ =
      ⟨r, flds ++ [HField.bits name w (v % 2 ^ w)], none⟩ := by
  simpa [bitsVal_enc] using readBitsF_append name w (enc v w) r flds (enc_length v w)

theorem rawF_append (name : String) (n : Nat) (l r : List Bool)
    (flds : List HField) (h : l.length = 8 * n) :
    rawF name n ⟨l ++ r, flds, none⟩ = ⟨r, flds ++ [HField.raw name n], none⟩ := by
  simp [rawF, ← h, List.take_left, List.drop_left]

theorem strF_append (name : String) (n : Nat) (l r : List Bool)
    (flds : List HField) (h : l.length = 8 * n) :
    strF name n ⟨l ++ r, flds, none⟩ = ⟨r, flds ++ [HField.str name n], none⟩ := by
  simp [strF, ← h, List.take_left, List.drop_left]

theorem rawF_all (name : String) (n : Nat) (l : List Bool)
    (flds : List HField) (h : l.length = 8 * n) :
    rawF name n ⟨l, flds, none⟩ = ⟨[], flds ++ [HField.raw name n], none⟩ := by
  simp [rawF, ← h, List.drop_length]

theorem commentBlockFields_nil (flds : List HField) :
    commentBlockFields ⟨[], flds, none⟩ = ⟨[], flds, some .truncated⟩ := rfl

/-- Build the bit stream of a File block body (the part
`FileBlock.createFields` consumes): the 16 flag bits in yield order, the
fixed-width numeric fields, the conditional `large_size`/`salt`/
`time_flags` extensions, the filename text, the extra-header bytes and the
compressed payload. -/
def mkFileInput (cf ci encr hc sol : Bool) (dict : Nat)
    (hes ign lrg uni salt ufv bxt bxf : Bool)
    (head cs us os crc t ver mth fl attrv lsz sltv tflags : Nat)
    (fname extra payload : List Bool) : List Bool :=
  List.flatten
    [bitB cf, bitB ci, bitB encr, bitB hc, bitB sol, enc dict 3,
     bitB hes, bitB ign, bitB lrg, bitB uni, bitB salt, bitB ufv,
     bitB bxt, bitB bxf,
     enc head 16, enc cs 32, enc us 32, enc os 8, enc crc 32, enc t 32,
     enc ver 8, enc mth 8, enc fl 16, enc attrv 32,
     if lrg then enc lsz 64 else [],
     if salt then enc sltv 8 else [],
     if bxt then enc tflags 16 else [],
     fname, extra, payload]

/-- The remaining-header count the claim describes for a File block:
`head_size − 7`, then minus the 25 fixed field bytes, minus 8 when the
large-size flag is set, minus 1 when the salt flag is set, minus the
filename length. -/
def rarRemaining (headSizeVal : Nat) (isLarge hasSalt : Bool)
    (filenameLen : Nat) : Int :=
  (headSizeVal : Int) - 7 - 25 - (if isLarge then 8 else 0) -
    (if hasSalt then 1 else 0) - (filenameLen : Int)

theorem nat_zero_eq_one : ((0 : Nat) = 1) = False := by simp

theorem nat_one_eq_one : ((1 : Nat) = 1) = True := by simp

set_option maxHeartbeats 4000000 in
/-- Helper for C1, positive leftover: decoding a File block built from the
given parameters emits an `extra_data` segment of exactly the remaining
byte count. -/
theorem fileExtraPos (cf ci encr hc sol hes ign lrg uni salt ufv bxt bxf : Bool)
    (dict head cs us os crc t ver mth fl attrv lsz sltv tflags : Nat)
    (fname extra payload : List Bool)
    (hhead : head < 2 ^ 16) (hcs : cs < 2 ^ 32) (hfl : fl < 2 ^ 16)
    (hfname : fname.length = 8 * fl)
    (hextra : extra.length = 8 * (rarRemaining head lrg salt fl).toNat)
    (hpayload : payload.length = 8 * cs)
    (hrem : 0 < rarRemaining head lrg salt fl) :
    HField.raw "extra_data" (rarRemaining head lrg salt fl).toNat ∈
      (fileBlockFields (initState (mkFileInput cf ci encr hc sol dict hes ign
        lrg uni salt ufv bxt bxf head cs us os crc t ver mth fl attrv
        lsz sltv tflags fname extra payload))).fields := by
  have hsplit : (fl = 0 ∧ fname = []) ∨ 0 < fl := by
    rcases Nat.eq_zero_or_pos fl with h | h
    · refine Or.inl ⟨h, List.length_eq_zero.mp ?_⟩
      omega
    · exact Or.inr h
  cases lrg <;> cases salt <;> cases bxt <;> cases hc <;>
    rcases hsplit with ⟨hfl0, rfl⟩ | hfl0 <;>
    simp only [rarRemaining, Bool.false_eq_true, eq_self_iff_true, ite_false,
      ite_true, sub_zero, hfl0, Nat.cast_zero] at hrem hextra <;>
    (simp only [fileBlockFields, fileFlagBits, initState, mkFileInput,
      List.flatten_cons, List.flatten_nil, List.append_nil, List.nil_append,
      List.cons_append, readBitsF_bitB, readBitsF_enc];
     simp only [getVal, lookupVal, String.reduceEq, Bool.false_eq_true,
      eq_self_iff_true, ite_false, ite_true, nat_zero_eq_one, nat_one_eq_one,
      Nat.mod_eq_of_lt hhead, Int.reduceAdd, Int.reduceSub];
     simp only [fileFixedStep];
     simp only [readBitsF_enc, List.append_nil, List.nil_append, List.cons_append];
     simp only [fileAttrField, getVal, lookupVal, String.reduceEq,
      Bool.false_eq_true, eq_self_iff_true, ite_false, ite_true, readBitsF_enc,
      List.append_nil, List.nil_append];
     simp only [fileLargeStep, getVal, lookupVal, String.reduceEq,
      Bool.false_eq_true, eq_self_iff_true, ite_false, ite_true, nat_zero_eq_one,
      nat_one_eq_one, readBitsF_enc, List.append_nil, List.nil_append];
     simp only [fileUnicodeStep];
     simp only [fileSaltStep, getVal, lookupVal, String.reduceEq,
      Bool.false_eq_true, eq_self_iff_true, ite_false, ite_true, nat_zero_eq_one,
      nat_one_eq_one, readBitsF_enc, List.append_nil, List.nil_append];
     simp only [fileTimeStep, getVal, lookupVal, String.reduceEq,
      Bool.false_eq_true, eq_self_iff_true, ite_false, ite_true, nat_zero_eq_one,
      nat_one_eq_one, readBitsF_enc, List.append_nil, List.nil_append];
     simp only [fileNameStep, getVal, lookupVal, String.reduceEq,
      Bool.false_eq_true, eq_self_iff_true, ite_false, ite_true,
      Nat.mod_eq_of_lt hfl, Nat.zero_mod, hfl0, lt_self_iff_false, strF_append,
      hfname, Int.reduceAdd, Int.reduceSub, List.append_nil, List.nil_append];
     simp only [fileExtraStep, hrem, eq_self_iff_true, ite_true, ite_false,
      lt_self_iff_false, rawF_append, hextra, List.append_nil, List.nil_append,
      Int.reduceAdd, Int.reduceSub];
     simp only [fileCompressedStep, getVal, lookupVal, String.reduceEq,
      Bool.false_eq_true, eq_self_iff_true, ite_false, ite_true,
      Nat.mod_eq_of_lt hcs, rawF_all, hpayload, List.append_nil, List.nil_append];
     simp only [fileCommentStep, getVal, lookupVal, String.reduceEq,
      Bool.false_eq_true, eq_self_iff_true, ite_false, ite_true, nat_zero_eq_one,
      nat_one_eq_one, commentBlockFields_nil];
     simp [rarRemaining, hfl0])

set_option maxHeartbeats 4000000 in
/-- Helper for C1, zero leftover: no `extra_data` segment is emitted. -/
theorem fileExtraZero (cf ci encr hc sol hes ign lrg uni salt ufv bxt bxf : Bool)
    (dict head cs us os crc t ver mth fl attrv lsz sltv tflags : Nat)
    (fname extra payload : List Bool)
    (hhead : head < 2 ^ 16) (hcs : cs < 2 ^ 32) (hfl : fl < 2 ^ 16)
    (hfname : fname.length = 8 * fl)
    (hextra : extra.length = 8 * (rarRemaining head lrg salt fl).toNat)
    (hpayload : payload.length = 8 * cs)
    (hrem : rarRemaining head lrg salt fl = 0) (n : Nat) :
    HField.raw "extra_data" n ∉
      (fileBlockFields (initState (mkFileInput cf ci encr hc sol dict hes ign
        lrg uni salt ufv bxt bxf head cs us os crc t ver mth fl attrv
        lsz sltv tflags fname extra payload))).fields := by
  have hsplit : (fl = 0 ∧ fname = []) ∨ 0 < fl := by
    rcases Nat.eq_zero_or_pos fl with h | h
    · refine Or.inl ⟨h, List.length_eq_zero.mp ?_⟩
      omega
    · exact Or.inr h
  obtain rfl : extra = [] := List.length_eq_zero.mp (by simp [hextra, hrem])
  cases lrg <;> cases salt <;> cases bxt <;> cases hc <;>
    rcases hsplit with ⟨hfl0, rfl⟩ | hfl0 <;>
    simp only [rarRemaining, Bool.false_eq_true, eq_self_iff_true, ite_false,
      ite_true, sub_zero, hfl0, Nat.cast_zero] at hrem <;>
    (simp only [fileBlockFields, fileFlagBits, initState, mkFileInput,
      List.flatten_cons, List.flatten_nil, List.append_nil, List.nil_append,
      List.cons_append, readBitsF_bitB, readBitsF_enc];
     simp only [getVal, lookupVal, String.reduceEq, Bool.false_eq_true,
      eq_self_iff_true, ite_false, ite_true, nat_zero_eq_one, nat_one_eq_one,
      Nat.mod_eq_of_lt hhead, Int.reduceAdd, Int.reduceSub];
     simp only [fileFixedStep];
     simp only [readBitsF_enc, List.append_nil, List.nil_append, List.cons_append];
     simp only [fileAttrField, getVal, lookupVal, String.reduceEq,
      Bool.false_eq_true, eq_self_iff_true, ite_false, ite_true, readBitsF_enc,
      List.append_nil, List.nil_append];
     simp only [fileLargeStep, getVal, lookupVal, String.reduceEq,
      Bool.false_eq_true, eq_self_iff_true, ite_false, ite_true, nat_zero_eq_one,
      nat_one_eq_one, readBitsF_enc, List.append_nil, List.nil_append];
     simp only [fileUnicodeStep];
     simp only [fileSaltStep, getVal, lookupVal, String.reduceEq,
      Bool.false_eq_true, eq_self_iff_true, ite_false, ite_true, nat_zero_eq_one,
      nat_one_eq_one, readBitsF_enc, List.append_nil, List.nil_append];
     simp only [fileTimeStep, getVal, lookupVal, String.reduceEq,
      Bool.false_eq_true, eq_self_iff_true, ite_false, ite_true, nat_zero_eq_one,
      nat_one_eq_one, readBitsF_enc, List.append_nil, List.nil_append];
     simp only [fileNameStep, getVal, lookupVal, String.reduceEq,
      Bool.false_eq_true, eq_self_iff_true, ite_false, ite_true,
      Nat.mod_eq_of_lt hfl, Nat.zero_mod, hfl0, lt_self_iff_false, strF_append,
      hfname, Int.reduceAdd, Int.reduceSub, List.append_nil, List.nil_append];
     simp only [fileExtraStep, hrem, eq_self_iff_true, ite_true, ite_false,
      lt_self_iff_false, rawF_append, List.append_nil, List.nil_append,
      Int.reduceAdd, Int.reduceSub];
     simp only [fileCompressedStep, getVal, lookupVal, String.reduceEq,
      Bool.false_eq_true, eq_self_iff_true, ite_false, ite_true,
      Nat.mod_eq_of_lt hcs, rawF_all, hpayload, List.append_nil, List.nil_append];
     simp only [fileCommentStep, getVal, lookupVal, String.reduceEq,
      Bool.false_eq_true, eq_self_iff_true, ite_false, ite_true, nat_zero_eq_one,
      nat_one_eq_one, commentBlockFields_nil];
     simp [rarRemaining, hfl0])

/-- C1: for every File block decode, the running remaining-header count
starts at `head_size − 7`, decreases by the 25 fixed field bytes, by 8
when the large-size flag is set, by 1 when the salt flag is set, and by
the filename length after the filename text is read (the value
`rarRemaining`); when the final count is positive an opaque `extra_data`
segment of exactly that many bytes is emitted, and when it is zero no
`extra_data` segment is emitted. -/
theorem c1_file_block_extra_header
    (cf ci encr hc sol hes ign lrg uni salt ufv bxt bxf : Bool)
    (dict head cs us os crc t ver mth fl attrv lsz sltv tflags : Nat)
    (fname extra payload : List Bool)
    (hhead : head < 2 ^ 16) (hcs : cs < 2 ^ 32) (hfl : fl < 2 ^ 16)
    (hfname : fname.length = 8 * fl)
    (hextra : extra.length = 8 * (rarRemaining head lrg salt fl).toNat)
    (hpayload : payload.length = 8 * cs) :
    (0 < rarRemaining head lrg salt fl →
      HField.raw "extra_data" (rarRemaining head lrg salt fl).toNat ∈
        (fileBlockFields (initState (mkFileInput cf ci encr hc sol dict hes ign
          lrg uni salt ufv bxt bxf head cs us os crc t ver mth fl attrv
          lsz sltv tflags fname extra payload))).fields) ∧
    (rarRemaining head lrg salt fl = 0 →
      ∀ n, HField.raw "extra_data" n ∉
        (fileBlockFields (initState (mkFileInput cf ci encr hc sol dict hes ign
          lrg uni salt ufv bxt bxf head cs us os crc t ver mth fl attrv
          lsz sltv tflags fname extra payload))).fields) :=
  ⟨fun hrem => fileExtraPos cf ci encr hc sol hes ign lrg uni salt ufv bxt bxf
      dict head cs us os crc t ver mth fl attrv lsz sltv tflags
      fname extra payload hhead hcs hfl hfname hextra hpayload hrem,
   fun hrem n => fileExtraZero cf ci encr hc sol hes ign lrg uni salt ufv bxt
      bxf dict head cs us os crc t ver mth fl attrv lsz sltv tflags
      fname extra payload hhead hcs hfl hfname hextra hpayload hrem n⟩

/-- Witness for C1 at a concrete File block: `head_size = 40`, salt flag
set, filename length 5, so the remaining count is
`40 − 7 − 25 − 1 − 5 = 2` and a 2-byte `extra_data` segment is emitted. -/
theorem c1_file_block_extra_header_witness :
    0 < rarRemaining 40 false true 5 ∧
    HField.raw "extra_data" (rarRemaining 40 false true 5).toNat ∈
      (fileBlockFields (initState (mkFileInput false false false false false 0
        false false false false true false false false 40 1 0 0 0 0 0 0 5 0
        0 0 0 (List.replicate 40 false) (List.replicate 16 false)
        (List.replicate 8 false)))).fields :=
  ⟨by decide,
   (c1_file_block_extra_header false false false false false false false false
      false true false false false 0 40 1 0 0 0 0 0 0 5 0 0 0 0
      (List.replicate 40 false) (List.replicate 16 false)
      (List.replicate 8 false) (by decide) (by decide) (by decide) (by decide)
      (by decide) (by decide)).1 (by decide)⟩

/-- C10: Marker and End blocks read exactly the 16 flag bits followed by
the 16-bit `head_size` — 4 bytes — and nothing else: no `added_size` is
read even when the extended-size bit (the 9th flag bit, `l2`) is set, and
no payload is consumed regardless of the `head_size` value (`l5`). -/
theorem c10_marker_end_fixed_width (l1 l2 l3 l4 l5 rest : List Bool)
    (h1 : l1.length = 8) (h2 : l2.length = 1) (h3 : l3.length = 1)
    (h4 : l4.length = 6) (h5 : l5.length = 16) :
    markerBlockFields (initState (l1 ++ (l2 ++ (l3 ++ (l4 ++ (l5 ++ rest)))))) =
      ⟨rest,
       [HField.bits "flags_bits1" 8 (bitsVal l1),
        HField.bits "has_extended_size" 1 (bitsVal l2),
        HField.bits "is_ignorable" 1 (bitsVal l3),
        HField.bits "flags_bits2" 6 (bitsVal l4),
        HField.bits "head_size" 16 (bitsVal l5)], none⟩ ∧
    endBlockFields (initState (l1 ++ (l2 ++ (l3 ++ (l4 ++ (l5 ++ rest)))))) =
      ⟨rest,
       [HField.bits "flags_bits1" 8 (bitsVal l1),
        HField.bits "has_extended_size" 1 (bitsVal l2),
        HField.bits "is_ignorable" 1 (bitsVal l3),
        HField.bits "flags_bits2" 6 (bitsVal l4),
        HField.bits "head_size" 16 (bitsVal l5)], none⟩ := by
  constructor <;>
    simp only [markerBlockFields, endBlockFields, baseFlagBits, initState,
      readBitsF_append, h1, h2, h3, h4, h5, List.nil_append, List.append_assoc,
      List.singleton_append, List.cons_append]

/-- Witness for C10: a Marker/End block whose extended-size bit is set and
whose `head_size` is 50000 still consumes exactly 4 bytes and yields no
`added_size` and no payload. -/
theorem c10_marker_end_fixed_width_witness :
    markerBlockFields (initState (enc 171 8 ++ ([true] ++ ([false] ++
        (enc 0 6 ++ (enc 50000 16 ++ List.replicate 8 true)))))) =
      ⟨List.replicate 8 true,
       [HField.bits "flags_bits1" 8 (bitsVal (enc 171 8)),
        HField.bits "has_extended_size" 1 (bitsVal [true]),
        HField.bits "is_ignorable" 1 (bitsVal [false]),
        HField.bits "flags_bits2" 6 (bitsVal (enc 0 6)),
        HField.bits "head_size" 16 (bitsVal (enc 50000 16))], none⟩ ∧
    endBlockFields (initState (enc 171 8 ++ ([true] ++ ([false] ++
        (enc 0 6 ++ (enc 50000 16 ++ List.replicate 8 true)))))) =
      ⟨List.replicate 8 true,
       [HField.bits "flags_bits1" 8 (bitsVal (enc 171 8)),
        HField.bits "has_extended_size" 1 (bitsVal [true]),
        HField.bits "is_ignorable" 1 (bitsVal [false]),
        HField.bits "flags_bits2" 6 (bitsVal (enc 0 6)),
        HField.bits "head_size" 16 (bitsVal (enc 50000 16))], none⟩ :=
  c10_marker_end_fixed_width (enc 171 8) [true] [false] (enc 0 6)
    (enc 50000 16) (List.replicate 8 true) (by decide) (by decide) (by decide)
    (by decide) (by decide)

/-- C8: `RarFile.validate` returns True exactly when the first 7 bytes of
the stream are the magic `52 61 72 21 1A 07 00`, and returns the
"Invalid magic" error string for every other 7-byte prefix (validation
runs in `Parser.__init__`, before `createFields` decodes any block). -/
theorem c8_validate_magic (stream : List Nat) (h : 7 ≤ stream.length) :
    (rarValidate stream = .ok ↔
      stream.take 7 = [0x52, 0x61, 0x72, 0x21, 0x1A, 0x07, 0x00]) ∧
    (stream.take 7 ≠ [0x52, 0x61, 0x72, 0x21, 0x1A, 0x07, 0x00] →
      rarValidate stream = .invalid "Invalid magic") := by
  have hm : markerMagicBytes = [0x52, 0x61, 0x72, 0x21, 0x1A, 0x07, 0x00] := by
    decide
  rw [rarValidate, hm]
  constructor
  · constructor
    · intro hok
      by_contra hne
      simp [hne] at hok
    · intro ht
      simp [ht]
  · intro hne
    simp [hne]

/-- Witness for C8: a stream starting with the magic validates, and one
with a corrupted first byte yields the "Invalid magic" error. -/
theorem c8_validate_magic_witness :
    7 ≤ ([0x52, 0x61, 0x72, 0x21, 0x1A, 0x07, 0x00, 0xFF] : List Nat).length ∧
    rarValidate [0x52, 0x61, 0x72, 0x21, 0x1A, 0x07, 0x00, 0xFF] = .ok ∧
    rarValidate [0x53, 0x61, 0x72, 0x21, 0x1A, 0x07, 0x00, 0xFF] =
      .invalid "Invalid magic" :=
  ⟨by decide,
   (c8_validate_magic [0x52, 0x61, 0x72, 0x21, 0x1A, 0x07, 0x00, 0xFF]
      (by decide)).1.mpr (by decide),
   (c8_validate_magic [0x53, 0x61, 0x72, 0x21, 0x1A, 0x07, 0x00, 0xFF]
      (by decide)).2 (by decide)⟩

/-- C3 (code bug): the dispatch of `BlockHead.createFields` disagrees with
the fixed tag table of the claim (and with the module's own `block_name`
table): tag 0x77 hits the undefined name `SubBlock` and raises
`NameError`; tag 0x7A — "New-format subblock" in `block_name` — falls
through to the unknown-tag Default arm, while the out-of-table tag 0x80 is
the one dispatched to the "New-format subblock" arm.  The in-table tags
0x72-0x76, 0x78, 0x79 and 0x7B dispatch as the table says, and other
out-of-table tags (e.g. 0x99) select the Default variant. -/
theorem c3_dispatch_table :
    blockHeadDispatch 0x72 = .marker ∧
    blockHeadDispatch 0x73 = .archive ∧
    blockHeadDispatch 0x74 = .file ∧
    blockHeadDispatch 0x75 = .comment ∧
    blockHeadDispatch 0x76 = .extraInfo ∧
    blockHeadDispatch 0x77 = .subBlockNameError ∧
    blockHeadDispatch 0x78 = .recovery ∧
    blockHeadDispatch 0x79 = .signature ∧
    blockHeadDispatch 0x7A = .unknown ∧
    blockHeadDispatch 0x7B = .endBlock ∧
    blockHeadDispatch 0x80 = .newFormatSubblock ∧
    blockHeadDispatch 0x99 = .unknown := by decide

set_option maxRecDepth 40000 in
/-- C2 (code bug): a Default (unknown-tag) block with declared size 20 and
no size extension consumes 20 opaque payload bytes — the full declared
size, not `20 − 7 = 13`: with 20 payload bytes the decode succeeds and
yields `RawBytes("unknown", 20)`, while with only 13 payload bytes it runs
out of stream.  An ExtraInfo block with the same declared size does
consume `20 − 7 = 13` opaque bytes. -/
theorem c2_default_block_payload :
    defaultBlockFields (initState (List.flatten [enc 0 8, enc 0 1, enc 0 1,
        enc 0 6, enc 20 16, List.replicate 160 false])) =
      ⟨[], [HField.bits "flags_bits1" 8 0, HField.bits "has_extended_size" 1 0,
            HField.bits "is_ignorable" 1 0, HField.bits "flags_bits2" 6 0,
            HField.bits "head_size" 16 20, HField.raw "unknown" 20], none⟩ ∧
    (defaultBlockFields (initState (List.flatten [enc 0 8, enc 0 1, enc 0 1,
        enc 0 6, enc 20 16, List.replicate 104 false]))).err =
      some .truncated ∧
    extraInfoBlockFields (initState (List.flatten [enc 0 8, enc 0 1, enc 0 1,
        enc 0 6, enc 20 16, List.replicate 104 false])) =
      ⟨[], [HField.bits "flags_bits1" 8 0, HField.bits "has_extended_size" 1 0,
            HField.bits "is_ignorable" 1 0, HField.bits "flags_bits2" 6 0,
            HField.bits "total_size" 16 20, HField.raw "info_data" 13], none⟩ := by
  decide

set_option maxRecDepth 40000 in
/-- C7 (code bug): decoding a well-formed Comment block (total size 20,
uncompressed size 5, followed by ample further bytes) reads the flag
prologue, `total_size` and `uncompressed_size`, then raises `NameError`
at `yield Byte(...)` (line 157: `Byte` is not imported), leaving the
required-version, packing-method, checksum and payload fields unread. -/
theorem c7_comment_block_name_error :
    commentBlockFields (initState (List.flatten [enc 0 8, enc 0 1, enc 0 1,
        enc 0 6, enc 20 16, enc 5 16, List.replicate 104 false])) =
      ⟨List.replicate 104 false,
       [HField.bits "flags_bits1" 8 0, HField.bits "has_extended_size" 1 0,
        HField.bits "is_ignorable" 1 0, HField.bits "flags_bits2" 6 0,
        HField.bits "total_size" 16 20, HField.bits "uncompressed_size" 16 5],
       some (.nameError "Byte")⟩ := by decide

set_option maxRecDepth 40000 in
/-- C4 (code bug): a File block whose `is_unicode` flag bit is set decodes
without error — line 253 constructs `ParserError("Can't handle unicode
filenames.")` but never raises it — and the decode proceeds through the
filename and the compressed payload. -/
theorem c4_unicode_flag_ignored :
    (fileBlockFields (initState (mkFileInput false false false false false 0
        false false false true false false false false 40 2 0 0 0 0 0 0 5 0
        0 0 0 (List.replicate 40 false) (List.replicate 24 false)
        (List.replicate 16 false)))).err = none ∧
    HField.str "filename" 5 ∈
      (fileBlockFields (initState (mkFileInput false false false false false 0
        false false false true false false false false 40 2 0 0 0 0 0 0 5 0
        0 0 0 (List.replicate 40 false) (List.replicate 24 false)
        (List.replicate 16 false)))).fields ∧
    HField.raw "compressed_data" 2 ∈
      (fileBlockFields (initState (mkFileInput false false false false false 0
        false false false true false false false false 40 2 0 0 0 0 0 0 5 0
        0 0 0 (List.replicate 40 false) (List.replicate 24 false)
        (List.replicate 16 false)))).fields := by decide

/-- C5 (code bug): `filename_suffix` is never served from a cache — the
`hasattr` guard tests `_filename_suffix` while the value is stored in
`_filename_extension`, so `createFilenameSuffix` runs again on every
access: starting from a fresh parser, two accesses invoke the computation
twice (the invocation counter reaches 2), for any computation result. -/
theorem c5_filename_suffix_recomputed (createFS : Except HErr (Option String)) :
    ((pGetFilenameSuffix createFS
        (pGetFilenameSuffix createFS freshParser).2).2).nFilenameSuffix = 2 ∧
    ((pGetFilenameSuffix createFS freshParser).2).filenameSuffixAttrSet =
      false := by
  cases createFS <;> simp [pGetFilenameSuffix, freshParser]

/-- C6 counterexample: an error raised by `createMimeType` propagates to
the caller of the `mime_type` property (`_getMimeType` has no `try`
block), contradicting the claim that such an error is always caught at
the memoization boundary and replaced by `"application/octet-stream"`. -/
theorem c6_mime_error_propagates :
    (pGetMimeType (.error (.hachoirError "boom")) freshParser).1 =
      .error (.hachoirError "boom") := rfl

/-- C6 amended: `description` and `content_size` catch a failing
computation and cache the documented default (the static tag description,
resp. `None`); `mime_type` and `filename_suffix` have no `try` block, so
a computation error propagates to the caller. -/
theorem c6_error_handling_amended (e : HErr) (td : String) :
    (pGetDescription (.error e) td freshParser).1 = some td ∧
    ((pGetDescription (.error e) td freshParser).2).descr = some td ∧
    (pGetContentSize (.error e) freshParser).1 = none ∧
    ((pGetContentSize (.error e) freshParser).2).contentSizeAttr = some none ∧
    (pGetMimeType (.error e) freshParser).1 = .error e ∧
    (pGetFilenameSuffix (.error e) freshParser).1 = .error e := by
  refine ⟨rfl, rfl, rfl, rfl, rfl, rfl⟩

/-- C9: with the first File entry present, `createMimeType` returns the
raw compressed payload when the filename is exactly `"mimetype"` and the
fixed string `"application/rar"` otherwise; `createFilenameSuffix`
returns `"."` plus the suffix-table entry for the payload when the
sentinel matches and the payload is a known MIME type, and `".rar"` in
every other case. -/
theorem c9_mime_and_suffix (mimeTypes : String → Option String)
    (fn d : String) :
    rarCreateMimeType ⟨some fn, some d⟩ =
      .ok (some (if fn = "mimetype" then d else "application/rar")) ∧
    (fn = "mimetype" → ∀ ext, mimeTypes d = some ext →
      rarCreateFilenameSuffix mimeTypes ⟨some fn, some d⟩ =
        .ok (some ("." ++ ext))) ∧
    ((fn ≠ "mimetype" ∨ mimeTypes d = none) →
      rarCreateFilenameSuffix mimeTypes ⟨some fn, some d⟩ =
        .ok (some ".rar")) := by
  refine ⟨?_, ?_, ?_⟩
  · by_cases h : fn = "mimetype" <;> simp [rarCreateMimeType, h]
  · intro h ext ht
    simp [rarCreateFilenameSuffix, h, ht]
  · intro h
    by_cases hf : fn = "mimetype"
    · rcases h with h | h
      · exact absurd hf h
      · simp [rarCreateFilenameSuffix, hf, h]
    · simp [rarCreateFilenameSuffix, hf]

/-- Witness for C9: a first file named `"mimetype"` whose payload is
`"application/pdf"`, with a table mapping it to `"pdf"`, yields MIME type
`"application/pdf"` and suffix `".pdf"`; a first file named `"a.txt"`
yields `"application/rar"` and `".rar"`. -/
theorem c9_mime_and_suffix_witness :
    rarCreateMimeType ⟨some "mimetype", some "application/pdf"⟩ =
      .ok (some "application/pdf") ∧
    rarCreateFilenameSuffix
      (fun m => if m = "application/pdf" then some "pdf" else none)
      ⟨some "mimetype", some "application/pdf"⟩ = .ok (some ".pdf") ∧
    rarCreateMimeType ⟨some "a.txt", some "application/pdf"⟩ =
      .ok (some "application/rar") ∧
    rarCreateFilenameSuffix
      (fun m => if m = "application/pdf" then some "pdf" else none)
      ⟨some "a.txt", some "application/pdf"⟩ = .ok (some ".rar") := by
  have h1 := c9_mime_and_suffix
    (fun m => if m = "application/pdf" then some "pdf" else none)
    "mimetype" "application/pdf"
  have h2 := c9_mime_and_suffix
    (fun m => if m = "application/pdf" then some "pdf" else none)
    "a.txt" "application/pdf"
  refine ⟨by simpa using h1.1, h1.2.1 rfl "pdf" (by decide), by simpa using h2.1,
    h2.2.2 (Or.inl (by decide))⟩
